import Mathlib

/-!
Shallow embedding of the SSE connection-test harness in
`src/arroyo-connectors/src/sse.rs` (`SseTester::start` and
`SseTester::test_internal`), together with the header-map parser
`arroyo_types::string_to_map` that the harness calls.

External collaborators (the `eventsource_client` library, the tokio
runtime's `select!` and `sleep`, and the mpsc sink) are modelled as an
explicit environment (`Env`) and an explicit sink-capacity parameter:
 - `Env.urlValid` models whether `ClientBuilder::for_url` succeeds for a
   given endpoint string (the library's URL validation);
 - `Env.headerOk` models whether `client.header(k, v)` accepts a pair;
 - `Env.streamFirst` models what the first poll of the event stream
   eventually produces (`Some(Ok(_))`, `Some(Err(e))` with `e` the
   Debug-rendered error detail, or `None`);
 - `Env.streamReadyAtMs` models the time, in milliseconds, at which the
   first poll of the stream resolves (`none` = it never resolves);
 - `Env.pollStreamFirst` models tokio's documented behaviour for an
   unbiased `select!`: when several branches are ready at the same poll,
   the macro polls the branches in a pseudo-random order and the first
   ready branch polled wins.
The run is modelled against a sink that accepts every send; the separate
`runWithSink` model makes the number of accepted sends explicit in order
to reason about the `.unwrap()` on a failed send.
-/

/-- `TestSourceMessage` from `arroyo_rpc::grpc::api`, as used by the
harness: an error flag, a terminal flag and a human-readable text. -/
structure TestSourceMessage where
  error : Bool
  done : Bool
  message : String
deriving Repr, DecidableEq

/-- `SseTable` (typify-imported), restricted to the fields the tester
reads: the endpoint URL and the optional raw header string (the Rust
`Headers` newtype wraps a `String`). -/
structure SseTable where
  endpoint : String
  events : Option String
  headers : Option String
deriving Repr, DecidableEq

/-- Split a character list on every occurrence of a separator; the
result always has at least one (possibly empty) group, matching the
semantics of splitting a string on a one-character separator. -/
def splitCharsOn (sep : Char) : List Char → List (List Char)
  | [] => [[]]
  | c :: cs =>
    if c = sep then [] :: splitCharsOn sep cs
    else
      match splitCharsOn sep cs with
      | [] => [[c]]
      | g :: gs => (c :: g) :: gs

/-- Drop surrounding whitespace from a character list. -/
def trimChars (cs : List Char) : List Char :=
  ((cs.dropWhile Char.isWhitespace).reverse.dropWhile Char.isWhitespace).reverse

/-- Split a character list at the first occurrence of a separator;
`none` when the separator does not occur. -/
def splitFirst (sep : Char) : List Char → Option (List Char × List Char)
  | [] => none
  | c :: cs =>
    if c = sep then some ([], cs)
    else
      match splitFirst sep cs with
      | none => none
      | some (k, v) => some (c :: k, v)

/-- Parse one comma-separated entry: split on the first `:`, trim key
and value; an entry with no `:` or with an empty key fails. -/
def parseHeaderEntry (entry : List Char) : Option (String × String) :=
  match splitFirst ':' entry with
  | none => none
  | some (k, v) =>
    let key := trimChars k
    if key = [] then none else some (⟨key⟩, ⟨trimChars v⟩)

/-- Parse every entry, failing if any entry fails. -/
def parseHeaderEntries : List (List Char) → Option (List (String × String))
  | [] => some []
  | entry :: rest =>
    match parseHeaderEntry entry with
    | none => none
    | some kv =>
      match parseHeaderEntries rest with
      | none => none
      | some m => some (kv :: m)

/-- Modelled from the spec: `arroyo_types::string_to_map` is declared in
the `arroyo-types` crate, which is not under this tree; only its caller
is. Per the spec: the input is split on `,` into entries; each entry is
split on the first `:` into key and value; both are trimmed of
surrounding whitespace; an entry with no `:`, or with an empty key, is a
parse failure; the empty input string parses successfully to the empty
mapping. -/
def string_to_map (raw : String) : Option (List (String × String)) :=
  if raw.data = [] then some []
  else parseHeaderEntries (splitCharsOn ',' raw.data)

/-- The first value produced by polling the event stream: `Some(Ok(_))`,
`Some(Err(e))` (with `e` the Debug-rendered detail the harness formats
into its failure message), or `None` (peer closed the connection). -/
inductive StreamFirst where
  | yields (ev : String)
  | yieldsErr (e : String)
  | closed
deriving Repr, DecidableEq

/-- The behaviour of the external collaborators for one run (see the
header comment). -/
structure Env where
  urlValid : String → Bool
  headerOk : String → String → Bool
  streamFirst : StreamFirst
  streamReadyAtMs : Option Nat
  pollStreamFirst : Bool

/-- `let timeout = Duration::from_secs(30)` in `test_internal`. -/
def timeoutSecs : Nat := 30

/-- The timeout in milliseconds, the resolution of `streamReadyAtMs`. -/
def timeoutMs : Nat := timeoutSecs * 1000

/-- Which branch of the `tokio::select!` in `test_internal` wins. -/
inductive RaceWinner where
  | stream
  | timer
deriving Repr, DecidableEq

/-- The resolution of the unbiased `tokio::select!` racing
`stream.next()` against `tokio::time::sleep(timeout)`: the branch that
becomes ready strictly first wins; when both become ready at the same
poll, the branch polled first under tokio's pseudo-random polling order
(`Env.pollStreamFirst`) wins. -/
def raceWinner (env : Env) : RaceWinner :=
  match env.streamReadyAtMs with
  | none => RaceWinner.timer
  | some t =>
    if t < timeoutMs then RaceWinner.stream
    else if timeoutMs < t then RaceWinner.timer
    else if env.pollStreamFirst then RaceWinner.stream else RaceWinner.timer

/-- The progress message sent after the client is built. -/
def constructedMsg : TestSourceMessage :=
  ⟨false, false, "Constructed SSE client"⟩

/-- The progress message sent when the stream yields `Some(Ok(_))`. -/
def receivedMsg : TestSourceMessage :=
  ⟨false, false, "Received message from SSE server"⟩

/-- The `for (k, v) in headers` loop: each pair is handed to
`client.header(k, v)`; the first rejected pair aborts the run with the
`Invalid header` error. -/
def applyHeaders (env : Env) : List (String × String) → Except String Unit
  | [] => Except.ok ()
  | (k, v) :: rest =>
    if env.headerOk k v then applyHeaders env rest
    else Except.error ("Invalid header " ++ "'" ++ k ++ ": " ++ v ++ "'")

/-- The body of the `tokio::select!`: the progress messages it sends and
the value `test_internal` completes with. -/
def raceResult (env : Env) : List TestSourceMessage × Except String Unit :=
  match raceWinner env with
  | RaceWinner.stream =>
    match env.streamFirst with
    | StreamFirst.yields _ => ([receivedMsg], Except.ok ())
    | StreamFirst.yieldsErr e =>
      ([], Except.error ("Received error from server: " ++ e))
    | StreamFirst.closed => ([], Except.error "Server closed connection")
  | RaceWinner.timer =>
    ([], Except.error "Did not receive any messages after 30 seconds")

/-- The trace of one execution of `test_internal`: the progress messages
it sent on the sink, its return value, and whether it reached the point
of polling the stream (the only place a network connection is
attempted). -/
structure RunTrace where
  progress : List TestSourceMessage
  result : Except String Unit
  connectionAttempted : Bool
deriving Repr

/-- `SseTester::test_internal`: validate the endpoint URL, parse the
header string (absent headers are normalized to `""`), attach each
header pair, send the `Constructed SSE client` progress message, then
race the first stream value against the 30-second timer. -/
def test_internal (env : Env) (config : SseTable) : RunTrace :=
  if env.urlValid config.endpoint then
    match string_to_map (config.headers.getD "") with
    | none =>
      ⟨[], Except.error "Headers are invalid; should be comma-separated pairs",
        false⟩
    | some headers =>
      match applyHeaders env headers with
      | Except.error e => ⟨[], Except.error e, false⟩
      | Except.ok _ =>
        let r := raceResult env
        ⟨constructedMsg :: r.1, r.2, true⟩
  else ⟨[], Except.error "Endpoint URL is invalid", false⟩

/-- The terminal message `SseTester::start` sends from the result of
`test_internal`. -/
def terminalOf : Except String Unit → TestSourceMessage
  | Except.ok _ => ⟨false, true, "Successfully validated SSE connection"⟩
  | Except.error e => ⟨true, true, e⟩

/-- `Except.isOk = false` as a plain Boolean on the result type. -/
def resultIsErr : Except String Unit → Bool
  | Except.ok _ => false
  | Except.error _ => true

/-- The full ordered message sequence one run of `SseTester::start`
emits on the sink when the sink accepts every send: the progress
messages of `test_internal` followed by the one terminal message. -/
def runMessages (env : Env) (config : SseTable) : List TestSourceMessage :=
  let t := test_internal env config
  t.progress ++ [terminalOf t.result]

/-- How the spawned task ends, once the sink's behaviour is explicit:
either it runs to completion, or a `send(..).await.unwrap()` panics the
task because the receiver is gone. -/
inductive TaskEnd where
  | finished
  | panickedOnSend
deriving Repr, DecidableEq

/-- The run against a sink that accepts only the first `accepts` sends:
the sends happen in sequence, so the messages actually delivered are a
prefix of `runMessages`; the first rejected send makes the `.unwrap()`
panic, ending the spawned task with no further sends. The panic is
confined to the spawned task: tokio catches it at the task boundary, and
`start` discarded the join handle, so nothing reaches the caller. -/
def runWithSink (env : Env) (config : SseTable) (accepts : Nat) :
    List TestSourceMessage × TaskEnd :=
  let msgs := runMessages env config
  if msgs.length ≤ accepts then (msgs, TaskEnd.finished)
  else (msgs.take accepts, TaskEnd.panickedOnSend)

/-- What the caller of `SseTester::start` observes as a return value:
`start` calls `tokio::task::spawn` and returns `()` immediately, before
the spawned task runs, so no error value from the run (including a send
failure) can reach it. -/
def startCallerResult (_env : Env) (_config : SseTable) (_accepts : Nat) :
    Except String Unit :=
  Except.ok ()

/-! ## Concrete environments used as witnesses -/

/-- An environment in which every external step succeeds and the stream
yields an `Ok` value after 1 ms. -/
def envAllOk : Env :=
  ⟨fun _ => true, fun _ _ => true, StreamFirst.yields "event", some 1, true⟩

/-- An environment whose URL validation rejects every endpoint. -/
def envBadUrl : Env :=
  ⟨fun _ => false, fun _ _ => true, StreamFirst.yields "event", some 1, true⟩

/-- An environment whose stream never yields. -/
def envNoMsg : Env :=
  ⟨fun _ => true, fun _ _ => true, StreamFirst.yields "event", none, true⟩

/-- An environment whose stream yields an error value after 1 ms. -/
def envStreamErr : Env :=
  ⟨fun _ => true, fun _ _ => true, StreamFirst.yieldsErr "boom", some 1, true⟩

/-- An environment whose stream closes (yields `None`) after 1 ms. -/
def envStreamClosed : Env :=
  ⟨fun _ => true, fun _ _ => true, StreamFirst.closed, some 1, true⟩

/-- A tie at the select: the stream becomes ready exactly when the timer
fires, and the pseudo-random polling order polls the stream first. -/
def envTieStreamFirst : Env :=
  ⟨fun _ => true, fun _ _ => true, StreamFirst.yields "event", some timeoutMs, true⟩

/-- The same tie, but the polling order polls the timer first. -/
def envTieTimerFirst : Env :=
  ⟨fun _ => true, fun _ _ => true, StreamFirst.yields "event", some timeoutMs, false⟩

/-! ## Helper lemmas -/

theorem terminalOf_done (r : Except String Unit) : (terminalOf r).done = true := by
  cases r <;> rfl

theorem terminalOf_error (r : Except String Unit) :
    (terminalOf r).error = resultIsErr r := by
  cases r <;> rfl

theorem raceResult_fst (env : Env) :
    (raceResult env).1 = [] ∨ (raceResult env).1 = [receivedMsg] := by
  unfold raceResult
  split
  · split <;> simp
  · simp

theorem progress_shape (env : Env) (config : SseTable) :
    (test_internal env config).progress = [] ∨
    (test_internal env config).progress = [constructedMsg] ∨
    (test_internal env config).progress = [constructedMsg, receivedMsg] := by
  unfold test_internal
  split
  · split
    · simp
    · split
      · simp
      · rcases raceResult_fst env with h | h <;> simp [h]
  · simp

theorem progress_done_false (env : Env) (config : SseTable) :
    ∀ m ∈ (test_internal env config).progress, m.done = false := by
  rcases progress_shape env config with h | h | h <;> rw [h] <;>
    simp [constructedMsg, receivedMsg]

theorem runMessages_eq (env : Env) (config : SseTable) :
    runMessages env config =
      (test_internal env config).progress ++
        [terminalOf (test_internal env config).result] := rfl

/-! ## Claims -/

/-- C1: for every run, whatever the outcome, the message sequence the
harness emits is zero or more `done = false` messages followed by
exactly one `done = true` message, and that terminal message has
`error = true` exactly when `test_internal` returned an error. -/
theorem run_always_terminal (env : Env) (config : SseTable) :
    ∃ prog term,
      runMessages env config = prog ++ [term] ∧
      (∀ m ∈ prog, m.done = false) ∧
      term.done = true ∧
      term.error = resultIsErr (test_internal env config).result :=
  ⟨(test_internal env config).progress,
    terminalOf (test_internal env config).result,
    runMessages_eq env config, progress_done_false env config,
    terminalOf_done _, terminalOf_error _⟩

/-- C10: every run emits at most three messages in total: at most two
progress messages (`done = false`) and exactly one terminal message
(`done = true`). -/
theorem run_at_most_three (env : Env) (config : SseTable) :
    (runMessages env config).length ≤ 3 ∧
    (test_internal env config).progress.length ≤ 2 ∧
    (runMessages env config).countP (fun m => m.done) = 1 := by
  have hr := runMessages_eq env config
  rcases progress_shape env config with h | h | h <;>
    rw [hr, h] <;>
    cases htest : (test_internal env config).result <;>
      simp [terminalOf, constructedMsg, receivedMsg]

/-- C2: when the endpoint is not a well-formed URL (the client builder
rejects it), the run emits exactly the single terminal failure message
and never reaches the point of polling the stream, so no network
connection is attempted and no progress message precedes the failure. -/
theorem invalid_endpoint_short_circuits (env : Env) (config : SseTable)
    (h : env.urlValid config.endpoint = false) :
    runMessages env config =
      [⟨true, true, "Endpoint URL is invalid"⟩] ∧
    (test_internal env config).connectionAttempted = false := by
  constructor <;> simp [runMessages, test_internal, h, terminalOf]

/-- Witness for C2 at the endpoint `"not a url"`. -/
theorem invalid_endpoint_short_circuits_witness :
    envBadUrl.urlValid "not a url" = false ∧
    (runMessages envBadUrl ⟨"not a url", none, none⟩ =
        [⟨true, true, "Endpoint URL is invalid"⟩] ∧
      (test_internal envBadUrl ⟨"not a url", none, none⟩).connectionAttempted
        = false) :=
  ⟨rfl, invalid_endpoint_short_circuits envBadUrl ⟨"not a url", none, none⟩ rfl⟩

/-- C3: when the header string fails the header-map grammar, the run
emits exactly one message, a terminal failure, never attempts a network
connection, and in particular never emits the `Constructed SSE client`
progress message (header resolution happens before that send). -/
theorem invalid_headers_short_circuit (env : Env) (config : SseTable)
    (hs : String) (hcfg : config.headers = some hs)
    (hbad : string_to_map hs = none) :
    ∃ m, runMessages env config = [m] ∧ m.error = true ∧ m.done = true ∧
      constructedMsg ∉ runMessages env config ∧
      (test_internal env config).connectionAttempted = false := by
  by_cases hu : env.urlValid config.endpoint = true
  · exact ⟨⟨true, true, "Headers are invalid; should be comma-separated pairs"⟩,
      by simp [runMessages, test_internal, hu, hcfg, hbad, terminalOf,
        constructedMsg]⟩
  · exact ⟨⟨true, true, "Endpoint URL is invalid"⟩,
      by simp [runMessages, test_internal, hu, hcfg, hbad, terminalOf,
        constructedMsg]⟩

/-- Witness for C3 at the header string `"badheader"`. -/
theorem invalid_headers_short_circuit_witness :
    string_to_map "badheader" = none ∧
    (∃ m,
      runMessages envAllOk ⟨"http://localhost:9563", none, some "badheader"⟩
          = [m] ∧
        m.error = true ∧ m.done = true ∧
        constructedMsg ∉
          runMessages envAllOk
            ⟨"http://localhost:9563", none, some "badheader"⟩ ∧
        (test_internal envAllOk
            ⟨"http://localhost:9563", none, some "badheader"⟩).connectionAttempted
          = false) :=
  ⟨by decide,
    invalid_headers_short_circuit envAllOk
      ⟨"http://localhost:9563", none, some "badheader"⟩ "badheader" rfl
      (by decide)⟩

/-- C9: the empty header string parses to the empty mapping, a target
with absent headers is normalized to the empty string before parsing, so
its run never fails at header resolution and behaves identically to a
target whose header string is empty. -/
theorem empty_headers_normalized (env : Env) (endpoint : String)
    (events : Option String) :
    string_to_map "" = some [] ∧
    (SseTable.mk endpoint events none).headers.getD "" = "" ∧
    string_to_map ((SseTable.mk endpoint events none).headers.getD "")
      = some [] ∧
    runMessages env ⟨endpoint, events, none⟩ =
      runMessages env ⟨endpoint, events, some ""⟩ :=
  ⟨rfl, rfl, rfl, rfl⟩

/-- C4: when the client is built, the headers resolve and every pair is
accepted, and the stream yields a first `Ok` value strictly before the
timer, the run emits exactly the three messages, in order: the
`Constructed SSE client` progress message, the `Received message from
SSE server` progress message, and the successful terminal message. -/
theorem immediate_success_messages (env : Env) (config : SseTable)
    (hdrs : List (String × String)) (t : Nat) (ev : String)
    (hu : env.urlValid config.endpoint = true)
    (hh : string_to_map (config.headers.getD "") = some hdrs)
    (ha : applyHeaders env hdrs = Except.ok ())
    (ht : env.streamReadyAtMs = some t) (htlt : t < timeoutMs)
    (hy : env.streamFirst = StreamFirst.yields ev) :
    runMessages env config =
      [⟨false, false, "Constructed SSE client"⟩,
       ⟨false, false, "Received message from SSE server"⟩,
       ⟨false, true, "Successfully validated SSE connection"⟩] := by
  simp [runMessages, test_internal, hu, hh, ha, raceResult, raceWinner, ht,
    htlt, hy, terminalOf, constructedMsg, receivedMsg]

/-- Witness for C4: a stream that yields within 1 ms. -/
theorem immediate_success_messages_witness :
    envAllOk.streamReadyAtMs = some 1 ∧ 1 < timeoutMs ∧
    runMessages envAllOk ⟨"http://localhost:9563", none, none⟩ =
      [⟨false, false, "Constructed SSE client"⟩,
       ⟨false, false, "Received message from SSE server"⟩,
       ⟨false, true, "Successfully validated SSE connection"⟩] :=
  ⟨rfl, by decide,
    immediate_success_messages envAllOk ⟨"http://localhost:9563", none, none⟩
      [] 1 "event" rfl (by decide) rfl rfl (by decide) rfl⟩

/-- C5: the race uses a fixed 30-second timer, and a run that reaches
the race and whose stream yields no value by the time the timer fires
resolves on the timer branch; its terminal message has `error = true`
and its text mentions the 30-second duration. -/
theorem timeout_terminal (env : Env) (config : SseTable)
    (hdrs : List (String × String))
    (hu : env.urlValid config.endpoint = true)
    (hh : string_to_map (config.headers.getD "") = some hdrs)
    (ha : applyHeaders env hdrs = Except.ok ())
    (hlate : ∀ t, env.streamReadyAtMs = some t → timeoutMs < t) :
    timeoutSecs = 30 ∧
    raceWinner env = RaceWinner.timer ∧
    runMessages env config =
      [constructedMsg,
       ⟨true, true, "Did not receive any messages after 30 seconds"⟩] ∧
    (∃ pre post,
      "Did not receive any messages after 30 seconds" =
        pre ++ (toString timeoutSecs ++ " seconds") ++ post) := by
  have hwin : raceWinner env = RaceWinner.timer := by
    unfold raceWinner
    cases hcase : env.streamReadyAtMs with
    | none => rfl
    | some t =>
      have hlt := hlate t hcase
      have h1 : ¬(t < timeoutMs) := by omega
      simp [h1, hlt]
  refine ⟨rfl, hwin, ?_, "Did not receive any messages after ", "", by decide⟩
  simp [runMessages, test_internal, hu, hh, ha, raceResult, hwin, terminalOf]

/-- Witness for C5: a stream that never yields. -/
theorem timeout_terminal_witness :
    (∀ t, envNoMsg.streamReadyAtMs = some t → timeoutMs < t) ∧
    (timeoutSecs = 30 ∧
      raceWinner envNoMsg = RaceWinner.timer ∧
      runMessages envNoMsg ⟨"http://localhost:9563", none, none⟩ =
        [constructedMsg,
         ⟨true, true, "Did not receive any messages after 30 seconds"⟩] ∧
      (∃ pre post,
        "Did not receive any messages after 30 seconds" =
          pre ++ (toString timeoutSecs ++ " seconds") ++ post)) :=
  ⟨fun t h => by simp [envNoMsg] at h,
    timeout_terminal envNoMsg ⟨"http://localhost:9563", none, none⟩ [] rfl
      (by decide) rfl (fun t h => by simp [envNoMsg] at h)⟩

/-- C6: when the race resolves on the stream branch, a stream that
yields an error value terminates the run with a failure message whose
text includes the server-provided detail, and a stream that ends with no
value terminates the run with the `Server closed connection` failure; in
both cases the terminal message has `error = true` and `done = true`. -/
theorem stream_error_or_closed_terminal (env : Env) (config : SseTable)
    (hdrs : List (String × String))
    (hu : env.urlValid config.endpoint = true)
    (hh : string_to_map (config.headers.getD "") = some hdrs)
    (ha : applyHeaders env hdrs = Except.ok ())
    (hwin : raceWinner env = RaceWinner.stream) :
    (∀ e, env.streamFirst = StreamFirst.yieldsErr e →
      runMessages env config =
        [constructedMsg,
         ⟨true, true, "Received error from server: " ++ e⟩] ∧
      ∃ pre, "Received error from server: " ++ e = pre ++ e) ∧
    (env.streamFirst = StreamFirst.closed →
      runMessages env config =
        [constructedMsg, ⟨true, true, "Server closed connection"⟩]) := by
  constructor
  · intro e he
    refine ⟨?_, "Received error from server: ", rfl⟩
    simp [runMessages, test_internal, hu, hh, ha, raceResult, hwin, he,
      terminalOf]
  · intro he
    simp [runMessages, test_internal, hu, hh, ha, raceResult, hwin, he,
      terminalOf]

/-- Witness for C6: a stream that yields the error detail `"boom"`. -/
theorem stream_error_or_closed_terminal_witness :
    raceWinner envStreamErr = RaceWinner.stream ∧
    envStreamErr.streamFirst = StreamFirst.yieldsErr "boom" ∧
    (runMessages envStreamErr ⟨"http://localhost:9563", none, none⟩ =
        [constructedMsg,
         ⟨true, true, "Received error from server: " ++ "boom"⟩] ∧
      ∃ pre, "Received error from server: " ++ "boom" = pre ++ "boom") :=
  ⟨by decide, rfl,
    (stream_error_or_closed_terminal envStreamErr
        ⟨"http://localhost:9563", none, none⟩ [] rfl (by decide) rfl
        (by decide)).1 "boom" rfl⟩

/-- C7: a send on a sink whose receiver is gone ends the run locally:
the `.unwrap()` panics the spawned task, so only the messages already
accepted were delivered and nothing further is sent, while the value
`start` returned to the caller (it returned at the spawn, before the
task ran) is unaffected — no error reaches the caller. -/
theorem sink_failure_local (env : Env) (config : SseTable) (accepts : Nat)
    (h : accepts < (runMessages env config).length) :
    (runWithSink env config accepts).2 = TaskEnd.panickedOnSend ∧
    (runWithSink env config accepts).1 = (runMessages env config).take accepts ∧
    startCallerResult env config accepts = Except.ok () := by
  have hnot : ¬((runMessages env config).length ≤ accepts) := by omega
  refine ⟨?_, ?_, rfl⟩ <;> simp [runWithSink, hnot]

/-- Witness for C7: the sink accepts only the first send of a
successful three-message run. -/
theorem sink_failure_local_witness :
    1 < (runMessages envAllOk ⟨"http://localhost:9563", none, none⟩).length ∧
    ((runWithSink envAllOk ⟨"http://localhost:9563", none, none⟩ 1).2 =
        TaskEnd.panickedOnSend ∧
      (runWithSink envAllOk ⟨"http://localhost:9563", none, none⟩ 1).1 =
        (runMessages envAllOk ⟨"http://localhost:9563", none, none⟩).take 1 ∧
      startCallerResult envAllOk ⟨"http://localhost:9563", none, none⟩ 1 =
        Except.ok ()) :=
  ⟨by decide,
    sink_failure_local envAllOk ⟨"http://localhost:9563", none, none⟩ 1
      (by decide)⟩

/-- C8 counterexample: with the stream becoming ready exactly when the
timer fires (both select branches ready at the same poll) and the stream
holding an `Ok` value, the branch taken — and with it the entire emitted
message sequence — differs between the two pseudo-random polling orders,
so the implementation does not deterministically take the stream
branch. -/
theorem select_tie_not_deterministic :
    envTieStreamFirst.streamReadyAtMs = some timeoutMs ∧
    envTieTimerFirst.streamReadyAtMs = some timeoutMs ∧
    raceWinner envTieStreamFirst = RaceWinner.stream ∧
    raceWinner envTieTimerFirst = RaceWinner.timer ∧
    runMessages envTieStreamFirst ⟨"http://localhost:9563", none, none⟩ ≠
      runMessages envTieTimerFirst ⟨"http://localhost:9563", none, none⟩ :=
  ⟨rfl, rfl, by decide, by decide, by decide⟩

/-- C8 (amended): when both select branches become ready at the same
poll, the branch taken follows tokio's pseudo-random polling order — the
stream branch wins exactly when it is polled first; there is no
deterministic preference for the data branch. -/
theorem select_tie_follows_poll_order (env : Env)
    (h : env.streamReadyAtMs = some timeoutMs) :
    raceWinner env =
      (if env.pollStreamFirst then RaceWinner.stream else RaceWinner.timer) := by
  unfold raceWinner
  rw [h]
  simp

/-- Witness for the amended C8. -/
theorem select_tie_follows_poll_order_witness :
    envTieStreamFirst.streamReadyAtMs = some timeoutMs ∧
    raceWinner envTieStreamFirst =
      (if envTieStreamFirst.pollStreamFirst then RaceWinner.stream
       else RaceWinner.timer) :=
  ⟨rfl, select_tie_follows_poll_order envTieStreamFirst rfl⟩
